import Mathlib

/-!
Shallow embedding of `src/cdk/lib/cdk-stack.ts` from montevideolabs-org/blog-webapp.

The source is a single CDK stack whose constructor builds, in program order:
an S3 bucket (`website-bucket`, S3-managed encryption, no other props), a
hosted-zone lookup for `BASE_DOMAIN`, a DNS-validated certificate pinned to
`us-east-1`, a CloudFront distribution (S3 origin, redirect-to-HTTPS,
`domainNames = [BASE_DOMAIN]`, `index.html`, the certificate), and an A record
(`recordName = BASE_DOMAIN`, alias target = the distribution).

Descriptors are modelled as immutable records holding exactly the properties
the source passes; the constructor is a pure function from the base domain,
the ambient zone registry, and the constructor arguments to a build trace
(which descriptor nodes were constructed, in order) and an `Except` result.
-/

namespace BlogWebapp

/-- `s3.BucketEncryption` values from aws-cdk-lib that the source can name. -/
inductive BucketEncryption
  | UNENCRYPTED
  | KMS_MANAGED
  | S3_MANAGED
  | KMS
  deriving DecidableEq, Repr

/-- The `s3.Bucket` descriptor: the source passes only `encryption`;
`publicReadAccess` / `websiteIndexDocument` are optional props left unset. -/
structure Bucket where
  cid : String
  encryption : Option BucketEncryption
  publicReadAccess : Option Bool
  websiteIndexDocument : Option String
  deriving DecidableEq, Repr

/-- The value of `route53.HostedZone.fromLookup`: a read-only reference to a
pre-existing zone, identified by the domain it is authoritative for. -/
structure HostedZoneRef where
  cid : String
  domainName : String
  deriving DecidableEq, Repr

/-- The `acm.DnsValidatedCertificate` descriptor, with the props the source
passes: `domainName`, `hostedZone`, `region`. -/
structure Certificate where
  cid : String
  domainName : String
  hostedZone : HostedZoneRef
  region : String
  deriving DecidableEq, Repr

/-- `cloudfront.ViewerProtocolPolicy` values. -/
inductive ViewerProtocolPolicy
  | HTTPS_ONLY
  | REDIRECT_TO_HTTPS
  | ALLOW_ALL
  deriving DecidableEq, Repr

/-- `origins.S3Origin(bucket)`: an origin wrapping the bucket descriptor. -/
structure S3Origin where
  bucket : Bucket
  deriving DecidableEq, Repr

/-- The `cloudfront.Distribution` descriptor with the props the source passes. -/
structure Distribution where
  cid : String
  origin : S3Origin
  viewerProtocolPolicy : ViewerProtocolPolicy
  domainNames : List String
  defaultRootObject : Option String
  certificate : Option Certificate
  deriving DecidableEq, Repr

/-- `route53Targets.CloudFrontTarget(distribution)`. -/
structure CloudFrontTarget where
  distribution : Distribution
  deriving DecidableEq, Repr

/-- `route53.RecordTarget.fromAlias(...)`: an alias target, not a plain IP. -/
inductive RecordTarget
  | fromAlias : CloudFrontTarget → RecordTarget
  deriving DecidableEq, Repr

/-- The `route53.ARecord` descriptor with the props the source passes. -/
structure ARecord where
  cid : String
  zone : HostedZoneRef
  recordName : String
  target : RecordTarget
  deriving DecidableEq, Repr

/-- `cdk.Environment`: the ambient account/region of `cdk.StackProps`. -/
structure Env where
  account : Option String
  region : Option String
  deriving DecidableEq, Repr

/-- `cdk.StackProps` as used by the constructor signature. -/
structure StackProps where
  env : Option Env
  deriving DecidableEq, Repr

/-- Errors that can surface during graph construction. The source code has no
validation branch of its own; the only failure is the external zone lookup. -/
inductive BuildError
  | ZoneNotFound
  deriving DecidableEq, Repr

/-- Tags naming the five descriptor nodes, used to record construction order. -/
inductive NodeTag
  | originStore
  | zoneResolver
  | certificate
  | edgeDistribution
  | aliasRecord
  deriving DecidableEq, Repr

/-- The finished five-node descriptor graph. -/
structure Graph where
  bucket : Bucket
  hostedZone : HostedZoneRef
  certificate : Certificate
  distribution : Distribution
  dnsRecord : ARecord
  deriving DecidableEq, Repr

/-- The module-level constant `BASE_DOMAIN` exactly as in the source. -/
def BASE_DOMAIN : String := "<YOUR_DOMAIN_HERE>"

/-- Modelled from the spec: the body of `route53.HostedZone.fromLookup` lives in
aws-cdk-lib, not under src/. Per the spec's Zone Resolver contract it resolves
the identity of a pre-existing zone authoritative for the given domain and
fails with `ZoneNotFound` when no matching zone is registered; the ambient zone
registry is modelled as a predicate on domain names. -/
def hostedZoneFromLookup (zoneRegistered : String → Bool) (cid domainName : String) :
    Except BuildError HostedZoneRef :=
  if zoneRegistered domainName then
    .ok { cid := cid, domainName := domainName }
  else
    .error .ZoneNotFound

/-- The body of `CdkStack`'s constructor, parametrised by the module constant
`baseDomain`, the ambient zone registry, and the constructor arguments
`scope`/`id`/`props` (passed to `super` and otherwise unread). Returns the list
of descriptor nodes constructed, in program order, and the resulting graph or
the error of the zone lookup. -/
def constructStack (zoneRegistered : String → Bool) (baseDomain : String)
    (_scope : String) (_id : String) (_props : Option StackProps) :
    List NodeTag × Except BuildError Graph :=
  let bucket : Bucket :=
    { cid := "website-bucket", encryption := some .S3_MANAGED,
      publicReadAccess := none, websiteIndexDocument := none }
  match hostedZoneFromLookup zoneRegistered "hosted-zone" baseDomain with
  | .error e => ([.originStore], .error e)
  | .ok hostedZone =>
    let certificate : Certificate :=
      { cid := "certificate", domainName := baseDomain,
        hostedZone := hostedZone, region := "us-east-1" }
    let distribution : Distribution :=
      { cid := "website-distribution", origin := ⟨bucket⟩,
        viewerProtocolPolicy := .REDIRECT_TO_HTTPS,
        domainNames := [baseDomain], defaultRootObject := some "index.html",
        certificate := some certificate }
    let dnsRecord : ARecord :=
      { cid := "DNSRecord", zone := hostedZone, recordName := baseDomain,
        target := .fromAlias ⟨distribution⟩ }
    ([.originStore, .zoneResolver, .certificate, .edgeDistribution, .aliasRecord],
      .ok { bucket := bucket, hostedZone := hostedZone, certificate := certificate,
            distribution := distribution, dnsRecord := dnsRecord })

/-- `CdkStack`'s constructor exactly as written: the domain is the module-level
`BASE_DOMAIN`. -/
def CdkStack.construct (zoneRegistered : String → Bool)
    (scope : String) (id : String) (props : Option StackProps) :
    List NodeTag × Except BuildError Graph :=
  constructStack zoneRegistered BASE_DOMAIN scope id props

/-- The graph `constructStack` produces for a given base domain on the
zone-found path (provable characterisation, see `constructStack_ok`). -/
def graphOf (baseDomain : String) : Graph :=
  let bucket : Bucket :=
    { cid := "website-bucket", encryption := some .S3_MANAGED,
      publicReadAccess := none, websiteIndexDocument := none }
  let hostedZone : HostedZoneRef := { cid := "hosted-zone", domainName := baseDomain }
  let certificate : Certificate :=
    { cid := "certificate", domainName := baseDomain,
      hostedZone := hostedZone, region := "us-east-1" }
  let distribution : Distribution :=
    { cid := "website-distribution", origin := ⟨bucket⟩,
      viewerProtocolPolicy := .REDIRECT_TO_HTTPS,
      domainNames := [baseDomain], defaultRootObject := some "index.html",
      certificate := some certificate }
  { bucket := bucket, hostedZone := hostedZone, certificate := certificate,
    distribution := distribution,
    dnsRecord :=
      { cid := "DNSRecord", zone := hostedZone, recordName := baseDomain,
        target := .fromAlias ⟨distribution⟩ } }

/-- The full five-node build trace in program order. -/
def fullTrace : List NodeTag :=
  [.originStore, .zoneResolver, .certificate, .edgeDistribution, .aliasRecord]

theorem constructStack_ok (zoneRegistered : String → Bool) (baseDomain scope id : String)
    (props : Option StackProps) (h : zoneRegistered baseDomain = true) :
    constructStack zoneRegistered baseDomain scope id props =
      (fullTrace, .ok (graphOf baseDomain)) := by
  simp [constructStack, hostedZoneFromLookup, h, graphOf, fullTrace]

theorem constructStack_err (zoneRegistered : String → Bool) (baseDomain scope id : String)
    (props : Option StackProps) (h : zoneRegistered baseDomain = false) :
    constructStack zoneRegistered baseDomain scope id props =
      ([.originStore], .error .ZoneNotFound) := by
  simp [constructStack, hostedZoneFromLookup, h]

theorem constructStack_ok_elim (zoneRegistered : String → Bool)
    (baseDomain scope id : String) (props : Option StackProps) (g : Graph)
    (h : (constructStack zoneRegistered baseDomain scope id props).2 = .ok g) :
    g = graphOf baseDomain := by
  cases hz : zoneRegistered baseDomain with
  | false => rw [constructStack_err _ _ _ _ _ hz] at h; exact absurd h (by simp)
  | true =>
    rw [constructStack_ok _ _ _ _ _ hz] at h
    exact (Except.ok.inj h).symm

/-- C1: for every invocation of the builder — every zone registry, base domain,
scope, id and props (hence every ambient deployment region inside `props`) —
the Certificate descriptor's issuing region is the explicit constant
`"us-east-1"`, never inherited from ambient configuration. -/
theorem certificate_region_pinned (zoneRegistered : String → Bool)
    (baseDomain scope id : String) (props : Option StackProps) (g : Graph)
    (h : (constructStack zoneRegistered baseDomain scope id props).2 = .ok g) :
    g.certificate.region = "us-east-1" := by
  rw [constructStack_ok_elim _ _ _ _ _ _ h]
  rfl

/-- Witness for C1 at a concrete invocation. -/
theorem certificate_region_pinned_witness :
    (graphOf "example.org").certificate.region = "us-east-1" :=
  certificate_region_pinned (fun _ => true) "example.org" "app" "CdkStack" none
    (graphOf "example.org") (by rw [constructStack_ok]; rfl)

/-- C2: in every graph the builder constructs, every domain name in the Edge
Distribution's alias list is covered by a Certificate attached as its
certificate reference whose domain name equals that alias; the
`MissingCertificateForAlias` branch of the claim is therefore never needed. -/
theorem alias_covered_by_certificate (zoneRegistered : String → Bool)
    (baseDomain scope id : String) (props : Option StackProps) (g : Graph)
    (h : (constructStack zoneRegistered baseDomain scope id props).2 = .ok g) :
    ∀ d ∈ g.distribution.domainNames,
      ∃ c : Certificate, g.distribution.certificate = some c ∧ c.domainName = d := by
  rw [constructStack_ok_elim _ _ _ _ _ _ h]
  intro d hd
  refine ⟨(graphOf baseDomain).certificate, rfl, ?_⟩
  have : d = baseDomain := by simpa [graphOf] using hd
  simp [graphOf, this]

/-- Witness for C2 at a concrete invocation and alias. -/
theorem alias_covered_by_certificate_witness :
    ∃ c : Certificate,
      (graphOf "example.org").distribution.certificate = some c ∧
        c.domainName = "example.org" :=
  alias_covered_by_certificate (fun _ => true) "example.org" "app" "CdkStack" none
    (graphOf "example.org") (by rw [constructStack_ok]; rfl)
    "example.org" (by simp [graphOf])

/-- C4: in every graph the builder constructs, the Alias Record's record name
occurs exactly once in the Edge Distribution's alias list; no mismatching
record is ever built. -/
theorem record_name_among_aliases (zoneRegistered : String → Bool)
    (baseDomain scope id : String) (props : Option StackProps) (g : Graph)
    (h : (constructStack zoneRegistered baseDomain scope id props).2 = .ok g) :
    g.distribution.domainNames.count g.dnsRecord.recordName = 1 := by
  rw [constructStack_ok_elim _ _ _ _ _ _ h]
  simp [graphOf]

/-- Witness for C4 at a concrete invocation. -/
theorem record_name_among_aliases_witness :
    (graphOf "example.org").distribution.domainNames.count
      (graphOf "example.org").dnsRecord.recordName = 1 :=
  record_name_among_aliases (fun _ => true) "example.org" "app" "CdkStack" none
    (graphOf "example.org") (by rw [constructStack_ok]; rfl)

/-- C7: every Origin Store descriptor the builder produces has server-side
encryption enabled (S3-managed) and carries no public-access policy and no
website-hosting document. -/
theorem bucket_encrypted_no_public_access (zoneRegistered : String → Bool)
    (baseDomain scope id : String) (props : Option StackProps) (g : Graph)
    (h : (constructStack zoneRegistered baseDomain scope id props).2 = .ok g) :
    g.bucket.encryption = some .S3_MANAGED ∧
      g.bucket.publicReadAccess = none ∧
      g.bucket.websiteIndexDocument = none := by
  rw [constructStack_ok_elim _ _ _ _ _ _ h]
  exact ⟨rfl, rfl, rfl⟩

/-- Witness for C7 at a concrete invocation. -/
theorem bucket_encrypted_no_public_access_witness :
    (graphOf "example.org").bucket.encryption = some .S3_MANAGED ∧
      (graphOf "example.org").bucket.publicReadAccess = none ∧
      (graphOf "example.org").bucket.websiteIndexDocument = none :=
  bucket_encrypted_no_public_access (fun _ => true) "example.org" "app" "CdkStack"
    none (graphOf "example.org") (by rw [constructStack_ok]; rfl)

/-- C3 counterexample: with no zone registered for `example.org`, construction
does fail with `ZoneNotFound` and builds no Certificate, Edge Distribution or
Alias Record — but the Origin Store descriptor HAS already been constructed on
that path (the bucket is built before the zone lookup in the source), refuting
the claim that no other descriptor node is built. -/
theorem zone_not_found_counterexample :
    (constructStack (fun _ => false) "example.org" "app" "CdkStack" none).2 =
        .error .ZoneNotFound ∧
      NodeTag.originStore ∈
        (constructStack (fun _ => false) "example.org" "app" "CdkStack" none).1 := by
  rw [constructStack_err (fun _ => false) "example.org" "app" "CdkStack" none rfl]
  exact ⟨rfl, by simp⟩

/-- C3 amended: if the zone lookup fails, construction fails with `ZoneNotFound`
before the Certificate, Edge Distribution or Alias Record is built — the build
trace on that path is exactly `[originStore]`: only the Origin Store, which the
constructor builds first, before the zone lookup, has been constructed. -/
theorem zone_not_found_fails_after_origin_only (zoneRegistered : String → Bool)
    (baseDomain scope id : String) (props : Option StackProps)
    (h : zoneRegistered baseDomain = false) :
    constructStack zoneRegistered baseDomain scope id props =
      ([.originStore], .error .ZoneNotFound) :=
  constructStack_err zoneRegistered baseDomain scope id props h

/-- Witness for the amended C3 at a concrete invocation. -/
theorem zone_not_found_fails_after_origin_only_witness :
    constructStack (fun _ => false) "example.net" "app" "CdkStack" none =
      ([.originStore], .error .ZoneNotFound) :=
  zone_not_found_fails_after_origin_only (fun _ => false) "example.net" "app"
    "CdkStack" none rfl

/-- The reference edges of a graph, read off the descriptors' reference-typed
fields: the Certificate's `hostedZone`, the Distribution's `origin` and
`certificate`, the A record's `zone` and `target`. `a` references `b` when the
corresponding field of `a`'s descriptor holds `b`'s descriptor; no descriptor
has any other reference-typed field. -/
def refEdge (g : Graph) (a b : NodeTag) : Prop :=
  (a = .certificate ∧ b = .zoneResolver ∧ g.certificate.hostedZone = g.hostedZone) ∨
  (a = .edgeDistribution ∧ b = .originStore ∧ g.distribution.origin = ⟨g.bucket⟩) ∨
  (a = .edgeDistribution ∧ b = .certificate ∧
    g.distribution.certificate = some g.certificate) ∨
  (a = .aliasRecord ∧ b = .zoneResolver ∧ g.dnsRecord.zone = g.hostedZone) ∨
  (a = .aliasRecord ∧ b = .edgeDistribution ∧
    g.dnsRecord.target = .fromAlias ⟨g.distribution⟩)

instance (g : Graph) (a b : NodeTag) : Decidable (refEdge g a b) := by
  unfold refEdge; infer_instance

/-- A topological height for the five nodes: every reference edge strictly
decreases it, so the reference relation is a strict DAG. -/
def nodeRank : NodeTag → Nat
  | .originStore => 0
  | .zoneResolver => 0
  | .certificate => 1
  | .edgeDistribution => 2
  | .aliasRecord => 3

/-- C5: in every constructed graph the reference edges are exactly
Certificate→ZoneResolver, EdgeDistribution→OriginStore,
EdgeDistribution→Certificate, AliasRecord→ZoneResolver,
AliasRecord→EdgeDistribution (so OriginStore and ZoneResolver have no incoming
edges and each node references only its listed targets), and every edge
strictly decreases `nodeRank`, so no cycle is constructible. -/
theorem reference_graph_strict_dag (zoneRegistered : String → Bool)
    (baseDomain scope id : String) (props : Option StackProps) (g : Graph)
    (h : (constructStack zoneRegistered baseDomain scope id props).2 = .ok g) :
    (∀ a b : NodeTag, refEdge g a b ↔
      (a, b) ∈ ([(.certificate, .zoneResolver),
                 (.edgeDistribution, .originStore),
                 (.edgeDistribution, .certificate),
                 (.aliasRecord, .zoneResolver),
                 (.aliasRecord, .edgeDistribution)] : List (NodeTag × NodeTag))) ∧
      ∀ a b : NodeTag, refEdge g a b → nodeRank b < nodeRank a := by
  rw [constructStack_ok_elim _ _ _ _ _ _ h]
  constructor
  · intro a b
    cases a <;> cases b <;> simp [refEdge, graphOf]
  · intro a b hab
    cases a <;> cases b <;> simp [refEdge, graphOf, nodeRank] at hab ⊢

/-- Witness for C5 at a concrete invocation: one claimed edge holds and its
rank strictly drops. -/
theorem reference_graph_strict_dag_witness :
    refEdge (graphOf "example.org") .aliasRecord .edgeDistribution ∧
      nodeRank .edgeDistribution < nodeRank .aliasRecord := by
  have h := reference_graph_strict_dag (fun _ => true) "example.org" "app"
    "CdkStack" none (graphOf "example.org") (by rw [constructStack_ok]; rfl)
  have he : refEdge (graphOf "example.org") .aliasRecord .edgeDistribution :=
    (h.1 .aliasRecord .edgeDistribution).mpr (by simp)
  exact ⟨he, h.2 _ _ he⟩

/-- C6: running the builder for domain `example.org` with the zone found yields
a build trace of exactly 5 nodes and the graph with
Certificate.domainName = "example.org", Certificate.region = "us-east-1",
Distribution.domainNames = ["example.org"], ARecord.recordName = "example.org". -/
theorem example_org_scenario (zoneRegistered : String → Bool)
    (scope id : String) (props : Option StackProps)
    (h : zoneRegistered "example.org" = true) :
    (constructStack zoneRegistered "example.org" scope id props).1.length = 5 ∧
      (constructStack zoneRegistered "example.org" scope id props).2 =
        .ok (graphOf "example.org") ∧
      (graphOf "example.org").certificate.domainName = "example.org" ∧
      (graphOf "example.org").certificate.region = "us-east-1" ∧
      (graphOf "example.org").distribution.domainNames = ["example.org"] ∧
      (graphOf "example.org").dnsRecord.recordName = "example.org" := by
  rw [constructStack_ok _ _ _ _ _ h]
  refine ⟨rfl, rfl, rfl, rfl, rfl, rfl⟩

/-- Witness for C6 at a concrete zone registry. -/
theorem example_org_scenario_witness :
    (constructStack (fun _ => true) "example.org" "app" "CdkStack" none).1.length = 5 ∧
      (constructStack (fun _ => true) "example.org" "app" "CdkStack" none).2 =
        .ok (graphOf "example.org") ∧
      (graphOf "example.org").certificate.domainName = "example.org" ∧
      (graphOf "example.org").certificate.region = "us-east-1" ∧
      (graphOf "example.org").distribution.domainNames = ["example.org"] ∧
      (graphOf "example.org").dnsRecord.recordName = "example.org" :=
  example_org_scenario (fun _ => true) "app" "CdkStack" none rfl

/-- C8: the builder is deterministic — two runs on the same inputs yield equal
results, and in particular every field of each of the five descriptors, their
identifiers included, coincides across the runs. -/
theorem builder_deterministic (zoneRegistered : String → Bool)
    (baseDomain scope id : String) (props : Option StackProps)
    (r₁ r₂ : List NodeTag × Except BuildError Graph)
    (h₁ : constructStack zoneRegistered baseDomain scope id props = r₁)
    (h₂ : constructStack zoneRegistered baseDomain scope id props = r₂) :
    r₁ = r₂ ∧
      ∀ g₁ g₂ : Graph, r₁.2 = .ok g₁ → r₂.2 = .ok g₂ →
        g₁.bucket = g₂.bucket ∧ g₁.hostedZone = g₂.hostedZone ∧
          g₁.certificate = g₂.certificate ∧ g₁.distribution = g₂.distribution ∧
          g₁.dnsRecord = g₂.dnsRecord := by
  subst h₁; subst h₂
  refine ⟨rfl, fun g₁ g₂ e₁ e₂ => ?_⟩
  rw [e₁] at e₂
  cases Except.ok.inj e₂
  exact ⟨rfl, rfl, rfl, rfl, rfl⟩

/-- Witness for C8 at a concrete invocation. -/
theorem builder_deterministic_witness :
    (fullTrace, Except.ok (graphOf "example.org")) =
        ((fullTrace, Except.ok (graphOf "example.org")) :
          List NodeTag × Except BuildError Graph) ∧
      ∀ g₁ g₂ : Graph,
        (Except.ok (graphOf "example.org") : Except BuildError Graph) = .ok g₁ →
        (Except.ok (graphOf "example.org") : Except BuildError Graph) = .ok g₂ →
        g₁.bucket = g₂.bucket ∧ g₁.hostedZone = g₂.hostedZone ∧
          g₁.certificate = g₂.certificate ∧ g₁.distribution = g₂.distribution ∧
          g₁.dnsRecord = g₂.dnsRecord :=
  builder_deterministic (fun _ => true) "example.org" "app" "CdkStack" none
    (fullTrace, .ok (graphOf "example.org")) (fullTrace, .ok (graphOf "example.org"))
    (by rw [constructStack_ok]; rfl) (by rw [constructStack_ok]; rfl)

/-- C9: in every graph `CdkStack`'s constructor builds, the zone lookup's
domain, the Certificate's domain, the Distribution's sole alias and the
A record's name are all the single module-level constant `BASE_DOMAIN`. -/
theorem domain_threads_whole_graph (zoneRegistered : String → Bool)
    (scope id : String) (props : Option StackProps) (g : Graph)
    (h : (CdkStack.construct zoneRegistered scope id props).2 = .ok g) :
    g.hostedZone.domainName = BASE_DOMAIN ∧
      g.certificate.domainName = BASE_DOMAIN ∧
      g.distribution.domainNames = [BASE_DOMAIN] ∧
      g.dnsRecord.recordName = BASE_DOMAIN := by
  rw [constructStack_ok_elim _ _ _ _ _ _ h]
  exact ⟨rfl, rfl, rfl, rfl⟩

/-- Witness for C9 at a concrete invocation. -/
theorem domain_threads_whole_graph_witness :
    (graphOf BASE_DOMAIN).hostedZone.domainName = BASE_DOMAIN ∧
      (graphOf BASE_DOMAIN).certificate.domainName = BASE_DOMAIN ∧
      (graphOf BASE_DOMAIN).distribution.domainNames = [BASE_DOMAIN] ∧
      (graphOf BASE_DOMAIN).dnsRecord.recordName = BASE_DOMAIN :=
  domain_threads_whole_graph (fun _ => true) "app" "CdkStack" none
    (graphOf BASE_DOMAIN)
    (by unfold CdkStack.construct; rw [constructStack_ok]; rfl)

/-- C10: the constructor body is branch-free — for every scope, id and props,
whenever the external zone lookup succeeds it unconditionally builds all five
descriptors in the fixed order OriginStore, ZoneResolver, Certificate,
EdgeDistribution, AliasRecord; and any construction-time error is the external
lookup's `ZoneNotFound`, never an error raised by graph assembly itself. -/
theorem constructor_branch_free (zoneRegistered : String → Bool)
    (baseDomain scope id : String) (props : Option StackProps) :
    (zoneRegistered baseDomain = true →
        constructStack zoneRegistered baseDomain scope id props =
          (fullTrace, .ok (graphOf baseDomain))) ∧
      ∀ e : BuildError,
        (constructStack zoneRegistered baseDomain scope id props).2 = .error e →
          e = .ZoneNotFound ∧ zoneRegistered baseDomain = false := by
  refine ⟨fun h => constructStack_ok _ _ _ _ _ h, fun e he => ?_⟩
  cases hz : zoneRegistered baseDomain with
  | false =>
    rw [constructStack_err _ _ _ _ _ hz] at he
    exact ⟨(Except.error.inj he).symm, rfl⟩
  | true =>
    rw [constructStack_ok _ _ _ _ _ hz] at he
    exact absurd he (by simp)

/-- Witness for C10: the success branch at one concrete invocation and the
error branch at another, both discharged by applying the theorem. -/
theorem constructor_branch_free_witness :
    constructStack (fun _ => true) "example.org" "app" "CdkStack" none =
        (fullTrace, .ok (graphOf "example.org")) ∧
      (BuildError.ZoneNotFound = .ZoneNotFound ∧
        (fun _ => false) "example.org" = false) :=
  ⟨(constructor_branch_free (fun _ => true) "example.org" "app" "CdkStack" none).1
      rfl,
    (constructor_branch_free (fun _ => false) "example.org" "app" "CdkStack"
        none).2 .ZoneNotFound (by rw [constructStack_err]; rfl)⟩

end BlogWebapp
